import Mathlib

/-!
Shallow embedding of the `A64TestEnv` memory/execution environment of
`src/demo.c` (a dynarmic A64 test harness), together with theorems about its
guest-memory, tick-budget and event-callback behaviour.

Machine integers are modelled as `Nat` with explicit reduction modulo
`2 ^ 64` (addresses) or `2 ^ 8 / 2 ^ 16 / 2 ^ 32` (stored values) exactly
where the C++ types truncate.  The `std::map<u64, u8> modified_memory` is
modelled as an association list where assignment conses the new binding in
front and lookup takes the first matching key; this has the same observable
lookup behaviour as the C++ map.
-/

/-- `2 ^ 64`, the modulus of C++ `u64` address arithmetic. -/
def M64 : Nat := 18446744073709551616

/-- Lookup in the association-list model of `std::map<u64, u8>`:
first binding for the key wins (the most recent assignment). -/
def mapFind (m : List (Nat × Nat)) (k : Nat) : Option Nat :=
  match m with
  | [] => none
  | (k2, v) :: rest => if k2 = k then some v else mapFind rest k

/-- State of the `A64TestEnv` class (`src/demo.c`, lines 17-27).
`code_mem` holds 32-bit words; `modified_memory` maps 64-bit addresses to
bytes; `interrupts` is the (never-appended-to) interrupt log. -/
structure A64TestEnv where
  ticks_left : Nat
  code_mem_modified_by_guest : Bool
  code_mem_start_address : Nat
  code_mem : List Nat
  modified_memory : List (Nat × Nat)
  interrupts : List String
deriving Repr, DecidableEq

/-- The freshly constructed environment (C++ member initializers). -/
def A64TestEnv.init : A64TestEnv :=
  { ticks_left := 0
    code_mem_modified_by_guest := false
    code_mem_start_address := 0
    code_mem := []
    modified_memory := []
    interrupts := [] }

/-- `IsInCodeMem` (line 28): `vaddr >= start && vaddr < start + size*4`,
with the upper bound computed in wrapping `u64` arithmetic. -/
def A64TestEnv.IsInCodeMem (env : A64TestEnv) (vaddr : Nat) : Bool :=
  decide (env.code_mem_start_address ≤ vaddr) &&
    decide (vaddr < (env.code_mem_start_address + env.code_mem.length * 4) % M64)

/-- `MemoryReadCode` (line 32): outside the code region return the
spin-sentinel `0x14000000` (`B .`), else the word at `(vaddr - start) / 4`. -/
def A64TestEnv.MemoryReadCode (env : A64TestEnv) (vaddr : Nat) : Option Nat :=
  if !env.IsInCodeMem vaddr then
    some 0x14000000
  else
    some (env.code_mem.getD ((vaddr - env.code_mem_start_address) / 4) 0)

/-- Byte `off` of the little-endian byte image of a word array
(`reinterpret_cast<u8*>(code_mem.data())[off]` on a little-endian host). -/
def codeByte (words : List Nat) (off : Nat) : Nat :=
  (words.getD (off / 4) 0 >>> (8 * (off % 4))) % 256

/-- `MemoryRead8` (line 41): code region bytes first, then the modified
memory overlay, else the low 8 bits of the address. -/
def A64TestEnv.MemoryRead8 (env : A64TestEnv) (vaddr : Nat) : Nat :=
  if env.IsInCodeMem vaddr then
    codeByte env.code_mem (vaddr - env.code_mem_start_address)
  else
    match mapFind env.modified_memory vaddr with
    | some v => v
    | none => vaddr % 256

/-- `MemoryRead16` (line 50): little-endian composition of two byte reads,
with `u64` wraparound on the incremented address. -/
def A64TestEnv.MemoryRead16 (env : A64TestEnv) (vaddr : Nat) : Nat :=
  env.MemoryRead8 vaddr ||| env.MemoryRead8 ((vaddr + 1) % M64) <<< 8

/-- `MemoryRead32` (line 53). -/
def A64TestEnv.MemoryRead32 (env : A64TestEnv) (vaddr : Nat) : Nat :=
  env.MemoryRead16 vaddr ||| env.MemoryRead16 ((vaddr + 2) % M64) <<< 16

/-- `MemoryRead64` (line 56). -/
def A64TestEnv.MemoryRead64 (env : A64TestEnv) (vaddr : Nat) : Nat :=
  env.MemoryRead32 vaddr ||| env.MemoryRead32 ((vaddr + 4) % M64) <<< 32

/-- `MemoryRead128` (line 59): a pair of 64-bit reads. -/
def A64TestEnv.MemoryRead128 (env : A64TestEnv) (vaddr : Nat) : Nat × Nat :=
  (env.MemoryRead64 vaddr, env.MemoryRead64 ((vaddr + 8) % M64))

/-- `MemoryWrite8` (line 63): set `code_mem_modified_by_guest` when the
address is in the code region, then unconditionally store the byte in
`modified_memory`.  The `% 256` models the `u8` parameter type. -/
def A64TestEnv.MemoryWrite8 (env : A64TestEnv) (vaddr value : Nat) : A64TestEnv :=
  let env1 :=
    if env.IsInCodeMem vaddr then { env with code_mem_modified_by_guest := true } else env
  { env1 with modified_memory := (vaddr, value % 256) :: env1.modified_memory }

/-- `MemoryWrite16` (line 69): two byte writes, little-endian; the
`static_cast<u8>` truncations are the `% 256`. -/
def A64TestEnv.MemoryWrite16 (env : A64TestEnv) (vaddr value : Nat) : A64TestEnv :=
  (env.MemoryWrite8 vaddr (value % 256)).MemoryWrite8 ((vaddr + 1) % M64) ((value >>> 8) % 256)

/-- `MemoryWrite32` (line 73). -/
def A64TestEnv.MemoryWrite32 (env : A64TestEnv) (vaddr value : Nat) : A64TestEnv :=
  (env.MemoryWrite16 vaddr (value % 65536)).MemoryWrite16 ((vaddr + 2) % M64)
    ((value >>> 16) % 65536)

/-- `MemoryWrite64` (line 77). -/
def A64TestEnv.MemoryWrite64 (env : A64TestEnv) (vaddr value : Nat) : A64TestEnv :=
  (env.MemoryWrite32 vaddr (value % 4294967296)).MemoryWrite32 ((vaddr + 4) % M64)
    ((value >>> 32) % 4294967296)

/-- `MemoryWrite128` (line 81): two 64-bit writes. -/
def A64TestEnv.MemoryWrite128 (env : A64TestEnv) (vaddr : Nat) (value : Nat × Nat) : A64TestEnv :=
  (env.MemoryWrite64 vaddr value.1).MemoryWrite64 ((vaddr + 8) % M64) value.2

/-- `MemoryWriteExclusive8` (line 86): performs the plain write, ignores
`expected`, returns `true`. -/
def A64TestEnv.MemoryWriteExclusive8 (env : A64TestEnv) (vaddr value expected : Nat) :
    Bool × A64TestEnv :=
  (true, env.MemoryWrite8 vaddr value)

/-- `MemoryWriteExclusive16` (line 90). -/
def A64TestEnv.MemoryWriteExclusive16 (env : A64TestEnv) (vaddr value expected : Nat) :
    Bool × A64TestEnv :=
  (true, env.MemoryWrite16 vaddr value)

/-- `MemoryWriteExclusive32` (line 94). -/
def A64TestEnv.MemoryWriteExclusive32 (env : A64TestEnv) (vaddr value expected : Nat) :
    Bool × A64TestEnv :=
  (true, env.MemoryWrite32 vaddr value)

/-- `MemoryWriteExclusive64` (line 98). -/
def A64TestEnv.MemoryWriteExclusive64 (env : A64TestEnv) (vaddr value expected : Nat) :
    Bool × A64TestEnv :=
  (true, env.MemoryWrite64 vaddr value)

/-- `MemoryWriteExclusive128` (line 102). -/
def A64TestEnv.MemoryWriteExclusive128 (env : A64TestEnv) (vaddr : Nat)
    (value expected : Nat × Nat) : Bool × A64TestEnv :=
  (true, env.MemoryWrite128 vaddr value)

/-- `InterpreterFallback` (line 107): the assertion is commented out, the
body is empty, so the state is returned unchanged. -/
def A64TestEnv.InterpreterFallback (env : A64TestEnv) (pc num_instructions : Nat) : A64TestEnv :=
  env

/-- `CallSVC` (line 110): empty body. -/
def A64TestEnv.CallSVC (env : A64TestEnv) (swi : Nat) : A64TestEnv :=
  env

/-- `ExceptionRaised` (line 112): empty body. -/
def A64TestEnv.ExceptionRaised (env : A64TestEnv) (pc exception : Nat) : A64TestEnv :=
  env

/-- `AddTicks` (line 114): clamp to zero on overconsumption, else subtract. -/
def A64TestEnv.AddTicks (env : A64TestEnv) (ticks : Nat) : A64TestEnv :=
  if ticks > env.ticks_left then { env with ticks_left := 0 }
  else { env with ticks_left := env.ticks_left - ticks }

/-- `GetTicksRemaining` (line 121). -/
def A64TestEnv.GetTicksRemaining (env : A64TestEnv) : Nat :=
  env.ticks_left

/-- `GetCNTPCT` (line 124): `0x10000000000 - ticks_left` in wrapping `u64`
arithmetic. -/
def A64TestEnv.GetCNTPCT (env : A64TestEnv) : Nat :=
  (0x10000000000 + M64 - env.ticks_left % M64) % M64

/-!
State-passing forms of the read/query methods.  In the C++ class each of
these is a non-`const` member function; the state-passing form makes the
(absence of) mutation explicit: each returns its value together with the
environment it leaves behind, threading the state through nested calls the
way the C++ methods call each other.
-/

/-- State-passing `MemoryReadCode`. -/
def A64TestEnv.MemoryReadCodeS (env : A64TestEnv) (vaddr : Nat) : Option Nat × A64TestEnv :=
  (env.MemoryReadCode vaddr, env)

/-- State-passing `MemoryRead8`. -/
def A64TestEnv.MemoryRead8S (env : A64TestEnv) (vaddr : Nat) : Nat × A64TestEnv :=
  (env.MemoryRead8 vaddr, env)

/-- State-passing `MemoryRead16`, composed from two byte reads. -/
def A64TestEnv.MemoryRead16S (env : A64TestEnv) (vaddr : Nat) : Nat × A64TestEnv :=
  let r0 := env.MemoryRead8S vaddr
  let r1 := r0.2.MemoryRead8S ((vaddr + 1) % M64)
  (r0.1 ||| r1.1 <<< 8, r1.2)

/-- State-passing `MemoryRead32`. -/
def A64TestEnv.MemoryRead32S (env : A64TestEnv) (vaddr : Nat) : Nat × A64TestEnv :=
  let r0 := env.MemoryRead16S vaddr
  let r1 := r0.2.MemoryRead16S ((vaddr + 2) % M64)
  (r0.1 ||| r1.1 <<< 16, r1.2)

/-- State-passing `MemoryRead64`. -/
def A64TestEnv.MemoryRead64S (env : A64TestEnv) (vaddr : Nat) : Nat × A64TestEnv :=
  let r0 := env.MemoryRead32S vaddr
  let r1 := r0.2.MemoryRead32S ((vaddr + 4) % M64)
  (r0.1 ||| r1.1 <<< 32, r1.2)

/-- State-passing `MemoryRead128`. -/
def A64TestEnv.MemoryRead128S (env : A64TestEnv) (vaddr : Nat) : (Nat × Nat) × A64TestEnv :=
  let r0 := env.MemoryRead64S vaddr
  let r1 := r0.2.MemoryRead64S ((vaddr + 8) % M64)
  ((r0.1, r1.1), r1.2)

/-- State-passing `GetTicksRemaining`. -/
def A64TestEnv.GetTicksRemainingS (env : A64TestEnv) : Nat × A64TestEnv :=
  (env.GetTicksRemaining, env)

/-- State-passing `GetCNTPCT`. -/
def A64TestEnv.GetCNTPCTS (env : A64TestEnv) : Nat × A64TestEnv :=
  (env.GetCNTPCT, env)

/-- One call through the `UserCallbacks` interface of `A64TestEnv`: every
operation of the environment, with its arguments. -/
inductive EnvOp where
  | readCode (a : Nat)
  | read8 (a : Nat)
  | read16 (a : Nat)
  | read32 (a : Nat)
  | read64 (a : Nat)
  | read128 (a : Nat)
  | write8 (a v : Nat)
  | write16 (a v : Nat)
  | write32 (a v : Nat)
  | write64 (a v : Nat)
  | write128 (a : Nat) (v : Nat × Nat)
  | writeExcl8 (a v e : Nat)
  | writeExcl16 (a v e : Nat)
  | writeExcl32 (a v e : Nat)
  | writeExcl64 (a v e : Nat)
  | writeExcl128 (a : Nat) (v e : Nat × Nat)
  | interpFallback (pc n : Nat)
  | callSVC (s : Nat)
  | excRaised (pc k : Nat)
  | addTicks (n : Nat)
  | getTicksRemaining
  | getCNTPCT
deriving Repr, DecidableEq

/-- The environment state after one operation (return values discarded). -/
def applyOp (op : EnvOp) (env : A64TestEnv) : A64TestEnv :=
  match op with
  | .readCode a => (env.MemoryReadCodeS a).2
  | .read8 a => (env.MemoryRead8S a).2
  | .read16 a => (env.MemoryRead16S a).2
  | .read32 a => (env.MemoryRead32S a).2
  | .read64 a => (env.MemoryRead64S a).2
  | .read128 a => (env.MemoryRead128S a).2
  | .write8 a v => env.MemoryWrite8 a v
  | .write16 a v => env.MemoryWrite16 a v
  | .write32 a v => env.MemoryWrite32 a v
  | .write64 a v => env.MemoryWrite64 a v
  | .write128 a v => env.MemoryWrite128 a v
  | .writeExcl8 a v e => (env.MemoryWriteExclusive8 a v e).2
  | .writeExcl16 a v e => (env.MemoryWriteExclusive16 a v e).2
  | .writeExcl32 a v e => (env.MemoryWriteExclusive32 a v e).2
  | .writeExcl64 a v e => (env.MemoryWriteExclusive64 a v e).2
  | .writeExcl128 a v e => (env.MemoryWriteExclusive128 a v e).2
  | .interpFallback pc n => env.InterpreterFallback pc n
  | .callSVC s => env.CallSVC s
  | .excRaised pc k => env.ExceptionRaised pc k
  | .addTicks n => env.AddTicks n
  | .getTicksRemaining => (env.GetTicksRemainingS).2
  | .getCNTPCT => (env.GetCNTPCTS).2

/-- A concrete environment with a one-word code region based at address 0,
holding the word `0xD2800000` (the first instruction the demo driver loads). -/
def envC : A64TestEnv :=
  { ticks_left := 100
    code_mem_modified_by_guest := false
    code_mem_start_address := 0
    code_mem := [0xD2800000]
    modified_memory := []
    interrupts := [] }

/-! Helper lemmas about `MemoryWrite8` and `AddTicks`. -/

lemma write8_start (env : A64TestEnv) (a v : Nat) :
    (env.MemoryWrite8 a v).code_mem_start_address = env.code_mem_start_address := by
  simp only [A64TestEnv.MemoryWrite8]
  split <;> rfl

lemma write8_code_mem (env : A64TestEnv) (a v : Nat) :
    (env.MemoryWrite8 a v).code_mem = env.code_mem := by
  simp only [A64TestEnv.MemoryWrite8]
  split <;> rfl

lemma write8_ticks (env : A64TestEnv) (a v : Nat) :
    (env.MemoryWrite8 a v).ticks_left = env.ticks_left := by
  simp only [A64TestEnv.MemoryWrite8]
  split <;> rfl

lemma write8_isInCodeMem (env : A64TestEnv) (a v x : Nat) :
    (env.MemoryWrite8 a v).IsInCodeMem x = env.IsInCodeMem x := by
  simp only [A64TestEnv.IsInCodeMem, write8_start, write8_code_mem]

lemma write8_flag (env : A64TestEnv) (a v : Nat) :
    (env.MemoryWrite8 a v).code_mem_modified_by_guest =
      (env.code_mem_modified_by_guest || env.IsInCodeMem a) := by
  simp only [A64TestEnv.MemoryWrite8]
  split <;> simp_all

lemma write8_modified_memory (env : A64TestEnv) (a v : Nat) :
    (env.MemoryWrite8 a v).modified_memory = (a, v % 256) :: env.modified_memory := by
  simp only [A64TestEnv.MemoryWrite8]
  split <;> rfl

lemma readCode_write8 (env : A64TestEnv) (a v x : Nat) :
    (env.MemoryWrite8 a v).MemoryReadCode x = env.MemoryReadCode x := by
  simp only [A64TestEnv.MemoryReadCode, write8_isInCodeMem, write8_start, write8_code_mem]

lemma read8_write8 (env : A64TestEnv) (a v x : Nat) (hx : env.IsInCodeMem x = false) :
    (env.MemoryWrite8 a v).MemoryRead8 x = if x = a then v % 256 else env.MemoryRead8 x := by
  have hmm := write8_modified_memory env a v
  unfold A64TestEnv.MemoryRead8
  rw [write8_isInCodeMem, hx, hmm]
  rcases Decidable.em (x = a) with h | h
  · subst h
    simp [mapFind]
  · simp only [Bool.false_eq_true, if_false, mapFind, if_neg (fun hh : a = x => h hh.symm),
      if_neg h]

lemma addTicks_ticks (env : A64TestEnv) (n : Nat) :
    (env.AddTicks n).ticks_left = env.ticks_left - n := by
  simp only [A64TestEnv.AddTicks]
  split <;> simp <;> omega

lemma write8_flag_mono (env : A64TestEnv) (a v : Nat)
    (h : env.code_mem_modified_by_guest = true) :
    (env.MemoryWrite8 a v).code_mem_modified_by_guest = true := by
  simp [write8_flag, h]

lemma write16_flag_mono (env : A64TestEnv) (a v : Nat)
    (h : env.code_mem_modified_by_guest = true) :
    (env.MemoryWrite16 a v).code_mem_modified_by_guest = true := by
  unfold A64TestEnv.MemoryWrite16
  exact write8_flag_mono _ _ _ (write8_flag_mono _ _ _ h)

lemma write32_flag_mono (env : A64TestEnv) (a v : Nat)
    (h : env.code_mem_modified_by_guest = true) :
    (env.MemoryWrite32 a v).code_mem_modified_by_guest = true := by
  unfold A64TestEnv.MemoryWrite32
  exact write16_flag_mono _ _ _ (write16_flag_mono _ _ _ h)

lemma write64_flag_mono (env : A64TestEnv) (a v : Nat)
    (h : env.code_mem_modified_by_guest = true) :
    (env.MemoryWrite64 a v).code_mem_modified_by_guest = true := by
  unfold A64TestEnv.MemoryWrite64
  exact write32_flag_mono _ _ _ (write32_flag_mono _ _ _ h)

lemma write128_flag_mono (env : A64TestEnv) (a : Nat) (v : Nat × Nat)
    (h : env.code_mem_modified_by_guest = true) :
    (env.MemoryWrite128 a v).code_mem_modified_by_guest = true := by
  unfold A64TestEnv.MemoryWrite128
  exact write64_flag_mono _ _ _ (write64_flag_mono _ _ _ h)

/-- C3: `code_mem_modified_by_guest` starts out false, is set to true by a
byte write landing in the code region, and once true stays true under every
operation of the environment. -/
theorem selfModifyFlag_lifecycle :
    A64TestEnv.init.code_mem_modified_by_guest = false ∧
    (∀ (env : A64TestEnv) (a v : Nat), env.IsInCodeMem a = true →
      (env.MemoryWrite8 a v).code_mem_modified_by_guest = true) ∧
    (∀ (env : A64TestEnv) (op : EnvOp), env.code_mem_modified_by_guest = true →
      (applyOp op env).code_mem_modified_by_guest = true) := by
  refine ⟨rfl, ?_, ?_⟩
  · intro env a v h
    simp [write8_flag, h]
  · intro env op h
    cases op with
    | readCode a => exact h
    | read8 a => exact h
    | read16 a => exact h
    | read32 a => exact h
    | read64 a => exact h
    | read128 a => exact h
    | write8 a v => exact write8_flag_mono _ _ _ h
    | write16 a v => exact write16_flag_mono _ _ _ h
    | write32 a v => exact write32_flag_mono _ _ _ h
    | write64 a v => exact write64_flag_mono _ _ _ h
    | write128 a v => exact write128_flag_mono _ _ _ h
    | writeExcl8 a v e => exact write8_flag_mono _ _ _ h
    | writeExcl16 a v e => exact write16_flag_mono _ _ _ h
    | writeExcl32 a v e => exact write32_flag_mono _ _ _ h
    | writeExcl64 a v e => exact write64_flag_mono _ _ _ h
    | writeExcl128 a v e => exact write128_flag_mono _ _ _ h
    | interpFallback pc n => exact h
    | callSVC s => exact h
    | excRaised pc k => exact h
    | addTicks n =>
      show (env.AddTicks n).code_mem_modified_by_guest = true
      unfold A64TestEnv.AddTicks
      split <;> exact h
    | getTicksRemaining => exact h
    | getCNTPCT => exact h

/-- Witness for C3 at concrete inputs: writing byte 5 to address 0 of `envC`
(inside its code region) raises the flag, and a subsequent `CallSVC` keeps it. -/
theorem selfModifyFlag_lifecycle_witness :
    (envC.MemoryWrite8 0 5).code_mem_modified_by_guest = true ∧
    (applyOp (EnvOp.callSVC 1) (envC.MemoryWrite8 0 5)).code_mem_modified_by_guest = true := by
  have h1 := selfModifyFlag_lifecycle.2.1 envC 0 5 (by decide)
  exact ⟨h1, selfModifyFlag_lifecycle.2.2 (envC.MemoryWrite8 0 5) (EnvOp.callSVC 1) h1⟩

/-- C4: `AddTicks` is saturating subtraction on the tick budget; composing
two consumptions leaves exactly `max 0 (B - n1 - n2)` and never underflows. -/
theorem consumeTicks_saturating (env : A64TestEnv) (n1 n2 : Nat) :
    (env.AddTicks n1).ticks_left = env.ticks_left - n1 ∧
    (((env.AddTicks n1).AddTicks n2).ticks_left : Int) =
      max 0 ((env.ticks_left : Int) - (n1 : Int) - (n2 : Int)) := by
  refine ⟨addTicks_ticks env n1, ?_⟩
  rw [addTicks_ticks, addTicks_ticks]
  omega

/-- C5: every exclusive write is exactly the corresponding plain write plus
the constant result `true`; the `expected` argument is ignored. -/
theorem writeExclusive_refines_write (env : A64TestEnv) (a v e : Nat) (v2 e2 : Nat × Nat) :
    env.MemoryWriteExclusive8 a v e = (true, env.MemoryWrite8 a v) ∧
    env.MemoryWriteExclusive16 a v e = (true, env.MemoryWrite16 a v) ∧
    env.MemoryWriteExclusive32 a v e = (true, env.MemoryWrite32 a v) ∧
    env.MemoryWriteExclusive64 a v e = (true, env.MemoryWrite64 a v) ∧
    env.MemoryWriteExclusive128 a v2 e2 = (true, env.MemoryWrite128 a v2) :=
  ⟨rfl, rfl, rfl, rfl, rfl⟩

/-- C8 counterexample: none of the three event callbacks appends a record to
the interrupt log — after each call on the fresh environment the log length
is still 0, not 1. -/
theorem events_append_counterexample :
    (A64TestEnv.init.InterpreterFallback 0 1).interrupts.length ≠
      A64TestEnv.init.interrupts.length + 1 ∧
    (A64TestEnv.init.CallSVC 7).interrupts.length ≠
      A64TestEnv.init.interrupts.length + 1 ∧
    (A64TestEnv.init.ExceptionRaised 4 2).interrupts.length ≠
      A64TestEnv.init.interrupts.length + 1 := by
  refine ⟨?_, ?_, ?_⟩ <;> decide

/-- C8 amended: the three event callbacks are total no-ops — they leave the
whole environment state, interrupt log included, unchanged (and, being total
functions, cannot abort). -/
theorem events_are_noops (env : A64TestEnv) (pc n s k : Nat) :
    env.InterpreterFallback pc n = env ∧ env.CallSVC s = env ∧
    env.ExceptionRaised pc k = env :=
  ⟨rfl, rfl, rfl⟩

/-- C10: every read and query operation returns the environment state it was
given, completely unchanged. -/
theorem queries_preserve_state (env : A64TestEnv) (a : Nat) :
    (env.MemoryReadCodeS a).2 = env ∧ (env.MemoryRead8S a).2 = env ∧
    (env.MemoryRead16S a).2 = env ∧ (env.MemoryRead32S a).2 = env ∧
    (env.MemoryRead64S a).2 = env ∧ (env.MemoryRead128S a).2 = env ∧
    (env.GetTicksRemainingS).2 = env ∧ (env.GetCNTPCTS).2 = env :=
  ⟨rfl, rfl, rfl, rfl, rfl, rfl, rfl, rfl⟩

/-- C1 counterexample: writing byte 255 at address 0, which lies inside
`envC`'s code region, and reading it back returns the code byte 0x00 of the
word 0xD2800000, not 255 — the code region shadows the overlay on reads. -/
theorem write_read_counterexample :
    (envC.MemoryWrite8 0 255).MemoryRead8 0 ≠ 255 := by
  decide

/-- C1 amended: for every address outside the code region, a byte write is
read back exactly. -/
theorem write_read_outside_code (env : A64TestEnv) (a v : Nat) (hv : v < 256)
    (ha : env.IsInCodeMem a = false) :
    (env.MemoryWrite8 a v).MemoryRead8 a = v := by
  rw [read8_write8 env a v a ha, if_pos rfl, Nat.mod_eq_of_lt hv]

/-- Witness for the amended C1 at concrete inputs. -/
theorem write_read_outside_code_witness :
    (A64TestEnv.init.MemoryWrite8 100 7).MemoryRead8 100 = 7 :=
  write_read_outside_code A64TestEnv.init 100 7 (by decide) (by decide)

/-- C2 counterexample: after writing byte 255 at address 0 inside `envC`'s
code region, fetching the instruction word at 0 still yields the original
word 0xD2800000, whose low byte is 0x00, not the written 255 (the fetch does
not consult the overlay); the self-modification flag is set, though. -/
theorem fetch_after_write_counterexample :
    (envC.MemoryWrite8 0 255).MemoryReadCode 0 = some 0xD2800000 ∧
    0xD2800000 % 256 ≠ 255 ∧
    (envC.MemoryWrite8 0 255).code_mem_modified_by_guest = true := by
  refine ⟨by decide, by decide, by decide⟩

/-- C2 amended: a byte write inside the code region sets the
self-modification flag, but instruction fetch is unaffected by the write —
it still returns what it returned before (the original code word). -/
theorem fetch_ignores_overlay (env : A64TestEnv) (a v x : Nat)
    (h : env.IsInCodeMem a = true) :
    (env.MemoryWrite8 a v).MemoryReadCode x = env.MemoryReadCode x ∧
    (env.MemoryWrite8 a v).code_mem_modified_by_guest = true :=
  ⟨readCode_write8 env a v x, by simp [write8_flag, h]⟩

/-- Witness for the amended C2 at concrete inputs. -/
theorem fetch_ignores_overlay_witness :
    (envC.MemoryWrite8 0 255).MemoryReadCode 0 = envC.MemoryReadCode 0 ∧
    (envC.MemoryWrite8 0 255).code_mem_modified_by_guest = true :=
  fetch_ignores_overlay envC 0 255 0 (by decide)

/-- C6: instruction fetch returns the spin sentinel 0x14000000 outside the
code region, the stored word at index `(a - base) / 4` at aligned addresses
inside it, and is unaffected by any byte write. -/
theorem fetch_spec (env : A64TestEnv) (a : Nat) :
    (env.IsInCodeMem a = false → env.MemoryReadCode a = some 0x14000000) ∧
    (env.IsInCodeMem a = true → a % 4 = 0 →
      env.MemoryReadCode a =
        some (env.code_mem.getD ((a - env.code_mem_start_address) / 4) 0)) ∧
    (∀ b v, (env.MemoryWrite8 b v).MemoryReadCode a = env.MemoryReadCode a) := by
  refine ⟨?_, ?_, fun b v => readCode_write8 env b v a⟩
  · intro h
    simp [A64TestEnv.MemoryReadCode, h]
  · intro h _
    simp [A64TestEnv.MemoryReadCode, h]

/-- Witness for C6 at concrete inputs: address 8 is outside `envC`'s
one-word code region and fetches the sentinel; aligned address 0 is inside
and fetches the stored word. -/
theorem fetch_spec_witness :
    envC.MemoryReadCode 8 = some 0x14000000 ∧ envC.MemoryReadCode 0 = some 0xD2800000 := by
  have h1 := (fetch_spec envC 8).1 (by decide)
  have h2 := (fetch_spec envC 0).2.1 (by decide) (by decide)
  exact ⟨h1, h2.trans (by decide)⟩

/-- C9: a byte read outside the code region at a never-written address
synthesizes the low 8 bits of the address. -/
theorem read_unmapped_byte (env : A64TestEnv) (a : Nat)
    (h1 : env.IsInCodeMem a = false) (h2 : mapFind env.modified_memory a = none) :
    env.MemoryRead8 a = a % 256 := by
  simp [A64TestEnv.MemoryRead8, h1, h2]

/-- Witness for C9 at a concrete input. -/
theorem read_unmapped_byte_witness :
    A64TestEnv.init.MemoryRead8 4660 = 52 :=
  (read_unmapped_byte A64TestEnv.init 4660 (by decide) (by decide)).trans (by decide)

lemma shiftLeft_lor_distrib (x y n : Nat) : (x ||| y) <<< n = x <<< n ||| y <<< n := by
  apply Nat.eq_of_testBit_eq
  intro i
  simp [Nat.testBit_shiftLeft, Nat.testBit_or, Bool.and_or_distrib_left]

lemma mod_shift_ne (a i : Nat) (ha : a < M64) (hi : 0 < i) (hi2 : i < M64) :
    a ≠ (a + i) % M64 := by
  unfold M64 at *
  omega

lemma mod_shift_ne2 (a i j : Nat) (ha : a < M64) (hij : i < j) (hj : j < M64) :
    (a + i) % M64 ≠ (a + j) % M64 := by
  unfold M64 at *
  omega

lemma read8_four_writes (env : A64TestEnv) (k0 k1 k2 k3 w0 w1 w2 w3 x : Nat)
    (hx : env.IsInCodeMem x = false) :
    ((((env.MemoryWrite8 k0 w0).MemoryWrite8 k1 w1).MemoryWrite8 k2 w2).MemoryWrite8
        k3 w3).MemoryRead8 x =
      if x = k3 then w3 % 256
      else if x = k2 then w2 % 256
      else if x = k1 then w1 % 256
      else if x = k0 then w0 % 256
      else env.MemoryRead8 x := by
  have hI : ∀ (e : A64TestEnv) (k w y : Nat),
      (e.MemoryWrite8 k w).IsInCodeMem y = e.IsInCodeMem y :=
    fun e k w y => write8_isInCodeMem e k w y
  rw [read8_write8 _ _ _ _ (by rw [hI, hI, hI]; exact hx),
    read8_write8 _ _ _ _ (by rw [hI, hI]; exact hx),
    read8_write8 _ _ _ _ (by rw [hI]; exact hx),
    read8_write8 _ _ _ _ hx]

lemma read8_write32 (env : A64TestEnv) (a v x : Nat) (hx : env.IsInCodeMem x = false) :
    (env.MemoryWrite32 a v).MemoryRead8 x =
      if x = (a + 3) % M64 then (v >>> 24) % 256
      else if x = (a + 2) % M64 then (v >>> 16) % 256
      else if x = (a + 1) % M64 then (v >>> 8) % 256
      else if x = a then v % 256
      else env.MemoryRead8 x := by
  have e3 : ((a + 2) % M64 + 1) % M64 = (a + 3) % M64 := by
    unfold M64
    omega
  have eb3 : ((((v >>> 16) % 65536) >>> 8) % 256) % 256 = (v >>> 24) % 256 := by omega
  have eb2 : (((v >>> 16) % 65536) % 256) % 256 = (v >>> 16) % 256 := by omega
  have eb1 : (((v % 65536) >>> 8) % 256) % 256 = (v >>> 8) % 256 := by omega
  have eb0 : ((v % 65536) % 256) % 256 = v % 256 := by omega
  simp only [A64TestEnv.MemoryWrite32, A64TestEnv.MemoryWrite16]
  rw [read8_four_writes env a ((a + 1) % M64) ((a + 2) % M64) (((a + 2) % M64 + 1) % M64)
    _ _ _ _ x hx]
  rw [e3, eb3, eb2, eb1, eb0]

/-- C7 counterexample: writing the 32-bit value 0xDEADBEEF at address 0 of
`envC` (inside its code region) and reading byte 0 back does not return the
little-endian low byte 0xEF — it returns the code region byte instead. -/
theorem multiByte_roundtrip_counterexample :
    (envC.MemoryWrite32 0 3735928559).MemoryRead8 0 ≠ 239 := by
  decide

/-- C7 amended: at addresses whose four byte cells lie outside the code
region, a 32-bit write followed by four byte reads yields the little-endian
bytes of the value, and four byte writes followed by a 32-bit read assembles
them little-endian. -/
theorem write_read_roundtrip_32 (env : A64TestEnv) (a v b0 b1 b2 b3 : Nat)
    (ha : a < M64) (hb0 : b0 < 256) (hb1 : b1 < 256) (hb2 : b2 < 256) (hb3 : b3 < 256)
    (h0 : env.IsInCodeMem a = false)
    (h1 : env.IsInCodeMem ((a + 1) % M64) = false)
    (h2 : env.IsInCodeMem ((a + 2) % M64) = false)
    (h3 : env.IsInCodeMem ((a + 3) % M64) = false) :
    ((env.MemoryWrite32 a v).MemoryRead8 a = v % 256 ∧
     (env.MemoryWrite32 a v).MemoryRead8 ((a + 1) % M64) = (v >>> 8) % 256 ∧
     (env.MemoryWrite32 a v).MemoryRead8 ((a + 2) % M64) = (v >>> 16) % 256 ∧
     (env.MemoryWrite32 a v).MemoryRead8 ((a + 3) % M64) = (v >>> 24) % 256) ∧
    ((((env.MemoryWrite8 a b0).MemoryWrite8 ((a + 1) % M64) b1).MemoryWrite8
        ((a + 2) % M64) b2).MemoryWrite8 ((a + 3) % M64) b3).MemoryRead32 a =
      b0 ||| b1 <<< 8 ||| b2 <<< 16 ||| b3 <<< 24 := by
  have d1 := mod_shift_ne a 1 ha (by decide) (by decide)
  have d2 := mod_shift_ne a 2 ha (by decide) (by decide)
  have d3 := mod_shift_ne a 3 ha (by decide) (by decide)
  have d12 := mod_shift_ne2 a 1 2 ha (by decide) (by decide)
  have d13 := mod_shift_ne2 a 1 3 ha (by decide) (by decide)
  have d23 := mod_shift_ne2 a 2 3 ha (by decide) (by decide)
  constructor
  · refine ⟨?_, ?_, ?_, ?_⟩
    · rw [read8_write32 env a v a h0, if_neg d3, if_neg d2, if_neg d1, if_pos rfl]
    · rw [read8_write32 env a v _ h1, if_neg d13, if_neg d12, if_pos rfl]
    · rw [read8_write32 env a v _ h2, if_neg d23, if_pos rfl]
    · rw [read8_write32 env a v _ h3, if_pos rfl]
  · have e3 : ((a + 2) % M64 + 1) % M64 = (a + 3) % M64 := by
      unfold M64
      omega
    have r0 : ((((env.MemoryWrite8 a b0).MemoryWrite8 ((a + 1) % M64) b1).MemoryWrite8
        ((a + 2) % M64) b2).MemoryWrite8 ((a + 3) % M64) b3).MemoryRead8 a = b0 := by
      rw [read8_four_writes env _ _ _ _ _ _ _ _ _ h0, if_neg d3, if_neg d2, if_neg d1,
        if_pos rfl, Nat.mod_eq_of_lt hb0]
    have r1 : ((((env.MemoryWrite8 a b0).MemoryWrite8 ((a + 1) % M64) b1).MemoryWrite8
        ((a + 2) % M64) b2).MemoryWrite8 ((a + 3) % M64) b3).MemoryRead8 ((a + 1) % M64) =
        b1 := by
      rw [read8_four_writes env _ _ _ _ _ _ _ _ _ h1, if_neg d13, if_neg d12, if_pos rfl,
        Nat.mod_eq_of_lt hb1]
    have r2 : ((((env.MemoryWrite8 a b0).MemoryWrite8 ((a + 1) % M64) b1).MemoryWrite8
        ((a + 2) % M64) b2).MemoryWrite8 ((a + 3) % M64) b3).MemoryRead8 ((a + 2) % M64) =
        b2 := by
      rw [read8_four_writes env _ _ _ _ _ _ _ _ _ h2, if_neg d23, if_pos rfl,
        Nat.mod_eq_of_lt hb2]
    have r3 : ((((env.MemoryWrite8 a b0).MemoryWrite8 ((a + 1) % M64) b1).MemoryWrite8
        ((a + 2) % M64) b2).MemoryWrite8 ((a + 3) % M64) b3).MemoryRead8 ((a + 3) % M64) =
        b3 := by
      rw [read8_four_writes env _ _ _ _ _ _ _ _ _ h3, if_pos rfl, Nat.mod_eq_of_lt hb3]
    simp only [A64TestEnv.MemoryRead32, A64TestEnv.MemoryRead16, e3, r0, r1, r2, r3]
    rw [shiftLeft_lor_distrib, ← Nat.shiftLeft_add, ← Nat.lor_assoc]

/-- Witness for the amended C7 at concrete inputs: value 0xDEADBEEF and its
little-endian bytes 0xEF, 0xBE, 0xAD, 0xDE at address 16 of the fresh
environment (whose code region is empty). -/
theorem write_read_roundtrip_32_witness :
    (((A64TestEnv.init.MemoryWrite32 16 3735928559).MemoryRead8 16 = 3735928559 % 256 ∧
      (A64TestEnv.init.MemoryWrite32 16 3735928559).MemoryRead8 ((16 + 1) % M64) =
        (3735928559 >>> 8) % 256 ∧
      (A64TestEnv.init.MemoryWrite32 16 3735928559).MemoryRead8 ((16 + 2) % M64) =
        (3735928559 >>> 16) % 256 ∧
      (A64TestEnv.init.MemoryWrite32 16 3735928559).MemoryRead8 ((16 + 3) % M64) =
        (3735928559 >>> 24) % 256) ∧
     ((((A64TestEnv.init.MemoryWrite8 16 239).MemoryWrite8 ((16 + 1) % M64) 190).MemoryWrite8
        ((16 + 2) % M64) 173).MemoryWrite8 ((16 + 3) % M64) 222).MemoryRead32 16 =
      239 ||| 190 <<< 8 ||| 173 <<< 16 ||| 222 <<< 24) :=
  write_read_roundtrip_32 A64TestEnv.init 16 3735928559 239 190 173 222 (by decide)
    (by decide) (by decide) (by decide) (by decide) (by decide) (by decide) (by decide)
    (by decide)
